import Mathlib

/-!
Verification of the python-driver-kit device toolkit (mdpnp).

Shallow embedding of the state machine, event loop, averaging subsystem,
instance-lifecycle management and clock-resolution tracking found in
`src/python-driver-kit`, together with theorems settling the frozen claims.

Python dynamic failures (TypeError, KeyError, ValueError, ...) are embedded
as values of `PyError` returned through `Except`.
-/

/-- Dynamic errors raised by the Python runtime or by explicit `raise`
statements in the source. -/
inductive PyError where
  | typeError : PyError
  | keyError : String → PyError
  | valueError : PyError
  | runtimeError : PyError
  | timeoutError : PyError
  | zeroDivisionError : PyError
  | attributeError : PyError
deriving DecidableEq, Repr

/-! ## StateMachine (src/python-driver-kit/StateMachine.py)

`StateMachine` holds a current state, a fixed legal-transition table and a
transition note.  The lock and the waiting primitives are concurrency
plumbing around the pure (state, note) update, which is what we embed. -/

/-- `ice_ConnectionState` enumeration used by the connectivity machine
(values referenced from the `ice` IDL module by
`AbstractConnectedDevice.py`). -/
inductive ice_ConnectionState where
  | Initial : ice_ConnectionState
  | Connecting : ice_ConnectionState
  | Negotiating : ice_ConnectionState
  | Connected : ice_ConnectionState
  | Terminal : ice_ConnectionState
deriving DecidableEq, Repr

/-- The (state, legalTransitions, transitionNote) data of
`StateMachine.__init__`.  The Python table is a list of two-element lists
`[from, to]`; we render each entry as a pair. -/
structure StateMachine (T : Type) where
  state : T
  legalTransitions : List (T × T)
  transitionNote : String
deriving DecidableEq, Repr

/-- `StateMachine.legalTransition`: scans the table for an entry whose
first component is the current state and whose second component is the
candidate state (StateMachine.py lines 61-74). -/
def StateMachine.legalTransition [DecidableEq T] (sm : StateMachine T) (s : T) : Bool :=
  sm.legalTransitions.any fun lt => sm.state = lt.1 ∧ s = lt.2

/-- `StateMachine.transitionIfLegal` (StateMachine.py lines 103-124): if
the transition is legal, updates state and note, wakes waiters, calls
`emit` (`pass` in the base class) and returns `True`.  The illegal
branch reads `self.__log` (line 123), which inside `class StateMachine`
name-mangles to `self._StateMachine__log` — an attribute never defined
(the class logger is `_log`, line 15) — so instead of logging and
returning `False` it raises `AttributeError`; nothing has been mutated
before the raise, so state and note are left unchanged. -/
def StateMachine.transitionIfLegal [DecidableEq T] (sm : StateMachine T) (s : T)
    (transitionNote : String) : Except PyError (Bool × StateMachine T) :=
  if sm.legalTransition s then
    .ok (true, { sm with state := s, transitionNote := transitionNote })
  else
    .error .attributeError

/-- The connectivity legal-transition table
(`AbstractConnectedDevice.__legalTransitions`,
AbstractConnectedDevice.py lines 67-90). -/
def connectivityLegalTransitions : List (ice_ConnectionState × ice_ConnectionState) :=
  [ (.Initial, .Connecting),
    (.Connecting, .Negotiating),
    (.Connected, .Negotiating),
    (.Connected, .Connecting),
    (.Negotiating, .Connected),
    (.Negotiating, .Connecting),
    (.Negotiating, .Terminal),
    (.Connecting, .Terminal),
    (.Connected, .Terminal) ]

/-! ## Averager (src/python-driver-kit/AbstractDevice.py lines 67-111)

The buffer is a Python list guarded by a lock; `add` appends and `get`
returns `0.0` on an empty buffer, otherwise the arithmetic mean, clearing
the buffer.  We embed the buffer as a list of rationals. -/

/-- The `Averager`'s internal value buffer. -/
structure Averager where
  values : List ℚ
deriving DecidableEq, Repr

/-- `Averager.add`: appends a value to the internal list. -/
def Averager.add (a : Averager) (value : ℚ) : Averager :=
  ⟨a.values ++ [value]⟩

/-- `Averager.get`: returns `0.0` if the buffer is empty (without touching
it), else the arithmetic mean of all values, clearing the buffer. -/
def Averager.get (a : Averager) : ℚ × Averager :=
  if a.values = [] then (0, a)
  else (a.values.sum / a.values.length, ⟨[]⟩)

/-! ## DomainClock resolution tracking (src/python-driver-kit/DomainClock.py)

`ensure_resolution_for_frequency` computes the sample period
`int((1_000_000_000 * size) / hertz)` and tightens the tracked
nanoseconds-per-sample value when the period is finer, raising
`ValueError` when the computed period is negative.  `hertz = 0` would
raise `ZeroDivisionError` in Python.  `Int.tdiv` matches Python's
`int(...)` truncation toward zero of the quotient.  The instance-level
entry point `refine_resolution_for_frequency` never reaches this static
helper (see its definition below). -/

/-- `DomainClock.ensure_resolution_for_frequency`
(DomainClock.py lines 80-101). -/
def ensure_resolution_for_frequency (current_resolution_ns_per_sample : ℤ)
    (hertz : ℤ) (size : ℤ) : Except PyError ℤ :=
  if hertz = 0 then .error .zeroDivisionError
  else
    let period_ns : ℤ := (1000000000 * size).tdiv hertz
    if period_ns < current_resolution_ns_per_sample then
      if period_ns < 0 then .error .valueError
      else .ok period_ns
    else .ok current_resolution_ns_per_sample

/-- `_Reading.refine_resolution_for_frequency` (DomainClock.py lines
180-187), given the tracked value and the call's arguments.  The body
reads `self_outer.__current_array_resolution_ns_per_sample`, which
inside `class _Reading` name-mangles to
`self_outer._Reading__current_array_resolution_ns_per_sample`.  That
attribute is never assigned: `DomainClock.__init__` (line 36) sets
`_DomainClock__current_array_resolution_ns_per_sample`, and the only
assignment to the `_Reading`-mangled name is this method's own left-hand
side, whose right-hand side is evaluated first.  Every call therefore
raises `AttributeError` before `ensure_resolution_for_frequency` runs,
and the tracker is never updated. -/
def refine_resolution_for_frequency (tracker hertz size : ℤ) : Except PyError ℤ :=
  .error .attributeError

/-- A sequence of `refine_resolution_for_frequency` calls, threading the
tracked value. -/
def refineResolutionCalls (init : ℤ) : List (ℤ × ℤ) → Except PyError ℤ
  | [] => .ok init
  | (hz, size) :: rest => do
    let r ← refine_resolution_for_frequency init hz size
    refineResolutionCalls r rest

/-! ## EventLoop (src/python-driver-kit/EventLoop.py)

Threads are identified by natural numbers; conditions by natural-number
ids (the Python code keys its handler map by `id(condition)`; the two
guard conditions attached in `__init__` get the model ids 0 and 1).

The scheduling environment of a call is abstracted by booleans: whether
the duration is zero, whether the service-thread role is released by its
holder before the caller's deadline, whether the `WaitSet.wait` call
times out, and whether a handler raises `TimeoutError`. -/

/-- The id our model gives the `__mutate` guard condition attached in
`EventLoop.__init__`. -/
def mutateConditionId : Nat := 0

/-- The id our model gives the `__callable` guard condition attached in
`EventLoop.__init__`. -/
def callableConditionId : Nat := 1

/-- The lock-guarded mutable fields of `EventLoop`: the recorded service
thread, the two queues, and the handler map (kept as the list of
condition ids that currently have a handler). -/
structure EventLoopState where
  currentServiceThread : Option Nat
  queuedMutations : List Nat
  queuedCallables : List Nat
  conditionHandlers : List Nat
deriving DecidableEq, Repr

/-- `EventLoop.__init__` (EventLoop.py lines 224-251): records the
constructing thread as the current service thread, starts with empty
queues, and attaches the mutate and callable guard conditions with their
handlers. -/
def eventLoopInit (constructingThread : Nat) : EventLoopState :=
  { currentServiceThread := some constructingThread,
    queuedMutations := [],
    queuedCallables := [],
    conditionHandlers := [mutateConditionId, callableConditionId] }

/-- `EventLoop.is_current_service_thread` (EventLoop.py lines 330-338):
compares the calling thread with the recorded service thread (false when
none is recorded). -/
def is_current_service_thread (currentServiceThread : Option Nat) (caller : Nat) : Bool :=
  some caller = currentServiceThread

/-- `EventLoop.addHandler` (EventLoop.py lines 341-358): from the service
thread the mutation is applied inline by `_handleMutation` (handler map
extended, condition attached); from any other thread it is queued and the
caller blocks on `await_mutation`.  The returned boolean records which
branch ran (`true` = applied inline). -/
def addHandler (s : EventLoopState) (caller : Nat) (conditionId : Nat) :
    Bool × EventLoopState :=
  if is_current_service_thread s.currentServiceThread caller then
    (true, { s with conditionHandlers := s.conditionHandlers ++ [conditionId] })
  else
    (false, { s with queuedMutations := s.queuedMutations ++ [conditionId] })

/-- `EventLoop.removeHandler` (EventLoop.py lines 361-377): inline
`_handleMutation` pops the handler when known (else only a warning is
logged); otherwise the mutation is queued.  The boolean records the
inline branch. -/
def removeHandler (s : EventLoopState) (caller : Nat) (conditionId : Nat) :
    Bool × EventLoopState :=
  if is_current_service_thread s.currentServiceThread caller then
    (true, { s with conditionHandlers := s.conditionHandlers.erase conditionId })
  else
    (false, { s with queuedMutations := s.queuedMutations ++ [conditionId] })

/-- `EventLoop.doNow` (EventLoop.py lines 392-408) applied to a callable
on a state of type `σ`.  From the service thread the callable runs
inline.  From any other thread the source executes `nr = NestedCallable()`;
`NestedCallable.__init__` (lines 172-183) requires a callable and a
logger, so this zero-argument construction raises `TypeError` before
anything is enqueued.  Returns the (possibly) transformed state, the
callable queue, and whether the callable ran inline. -/
def doNow (currentServiceThread : Option Nat) (caller : Nat)
    (queuedCallables : List Nat) (c : σ → σ) (st : σ) :
    Except PyError (σ × List Nat × Bool) :=
  if is_current_service_thread currentServiceThread caller then
    .ok (c st, queuedCallables, true)
  else
    .error .typeError

/-- The part of `EventLoop.waitAndHandle` after the acquisition loop
(EventLoop.py lines 307-327).  `cond_seq = self.__waitSet.wait(dur)` sits
*outside* the `try`, so a timeout raised there skips the `finally` that
releases the role; the `except TimeoutError` around the handler loop
returns `False` and the `finally` then releases the role and notifies.
Result: (recorded service thread on exit, whether `notify_all` ran,
outcome). -/
def waitAndHandleDispatch (caller : Nat) (waitSetTimesOut : Bool)
    (handlerRaisesTimeout : Bool) :
    Option Nat × Bool × Except PyError (Option Bool) :=
  if waitSetTimesOut then
    (some caller, false, .error .timeoutError)
  else if handlerRaisesTimeout then
    (none, true, .ok (some false))
  else
    (none, true, .ok none)

/-- `EventLoop.waitAndHandle` (EventLoop.py lines 278-327).  The
acquisition loop waits while a service thread is recorded; a zero
duration raises `TimeoutError` inside the loop.  When the loop exits,
line 302 unconditionally records the caller as service thread, and line
305 raises `TimeoutError` if the deadline has passed — outside any
`try`/`finally`.  `roleFreedDuringWait` says whether the holder released
the role before the caller's deadline. -/
def waitAndHandle (currentServiceThread : Option Nat) (caller : Nat)
    (durZero : Bool) (roleFreedDuringWait : Bool) (waitSetTimesOut : Bool)
    (handlerRaisesTimeout : Bool) :
    Option Nat × Bool × Except PyError (Option Bool) :=
  match currentServiceThread with
  | some holder =>
    if durZero then
      (some holder, false, .error .timeoutError)
    else if roleFreedDuringWait then
      waitAndHandleDispatch caller waitSetTimesOut handlerRaisesTimeout
    else
      (some caller, false, .error .timeoutError)
  | none =>
    waitAndHandleDispatch caller waitSetTimesOut handlerRaisesTimeout

/-! ## AbstractDevice instance lifecycle (src/python-driver-kit/AbstractDevice.py)

Instance handles are minted by the modelled DDS writers from a fresh
counter; registration always succeeds with a non-nil handle (a nil handle
would signal a transport-level registration failure of the external
collaborator, which the source logs and tolerates).  Calls into the
writers are recorded in an action log so that registration,
unregistration and write traffic can be stated. -/

/-- A DDS `Time` value as produced by `DomainClock.to_DDS_time`. -/
structure DDSTime where
  sec : Nat
  nanosec : Nat
deriving DecidableEq, Repr

/-- `DomainClock.to_DDS_time` (DomainClock.py lines 40-65) on a
non-negative millisecond timestamp. -/
def to_DDS_time (milliseconds : Nat) : DDSTime :=
  ⟨milliseconds / 1000, milliseconds % 1000 * 1000000⟩

/-- A `DeviceClock.Reading` restricted to what `_numericSample` consumes:
an optional device-local millisecond timestamp (`has_device_time` /
`get_device_time`) and the presentation millisecond timestamp
(`get_time`). -/
structure Reading where
  deviceTimeMs : Option Nat
  timeMs : Nat
deriving DecidableEq, Repr

/-- The fields of `ice_Numeric` that the driver kit reads or writes. -/
structure ice_Numeric where
  unique_device_identifier : String
  metric_id : String
  vendor_metric_id : String
  instance_id : ℤ
  unit_id : String
  value : Option ℚ
  device_time : DDSTime
  presentation_time : DDSTime
deriving DecidableEq, Repr

/-- `InstanceHolder[ice_Numeric]`: the data record paired with its
bus-assigned handle (`None` until registered). -/
structure NumericHolder where
  data : ice_Numeric
  handle : Option Nat
deriving DecidableEq, Repr

/-- The fields of `ice_Alert` that the driver kit reads or writes. -/
structure ice_Alert where
  unique_device_identifier : String
  identifier : String
  text : String
deriving DecidableEq, Repr

/-- `InstanceHolder[ice_Alert]`. -/
structure AlertHolder where
  data : ice_Alert
  handle : Option Nat
deriving DecidableEq, Repr

/-- An `InstanceHolder` of one of the families whose payload the claims
do not inspect (sample arrays, alarm limits, alarm-limit objectives):
only the handle participates in the drain loops. -/
structure SimpleHolder where
  handle : Option Nat
deriving DecidableEq, Repr

/-- One call into a modelled DDS writer. -/
inductive DeviceAction where
  | registerNumeric : Nat → DeviceAction
  | unregisterNumeric : Option Nat → DeviceAction
  | writeNumeric : Option Nat → ice_Numeric → DeviceAction
  | unregisterSampleArray : Option Nat → DeviceAction
  | unregisterAlarmLimit : Option Nat → DeviceAction
  | unregisterAlarmLimitObjective : Option Nat → DeviceAction
  | registerAlert : Nat → DeviceAction
  | alertWrite : Option Nat → ice_Alert → DeviceAction
  | unregisterDeviceIdentity : Option Nat → DeviceAction
deriving DecidableEq, Repr

/-- The mutable collections of `AbstractDevice.__init__`
(AbstractDevice.py lines 420-430), the device identity, and the modelled
writer state (fresh-handle counter and action log).  Alert maps are
insertion-ordered association lists, as Python dicts are; the old-key
sets are key lists. -/
structure DeviceState where
  unique_device_identifier : String
  nextHandle : Nat
  registeredNumericInstances : List NumericHolder
  registeredSampleArrayInstances : List SimpleHolder
  registeredAlarmLimitInstances : List SimpleHolder
  registeredAlarmLimitObjectiveInstances : List SimpleHolder
  patientAlertInstances : List (String × AlertHolder)
  technicalAlertInstances : List (String × AlertHolder)
  oldPatientAlertInstances : List String
  oldTechnicalAlertInstances : List String
  averagesByNumeric : List (String × List (Option ℚ))
  deviceIdentityHandle : Option Nat
  actions : List DeviceAction
deriving DecidableEq, Repr

/-- `map.get(key)` on an insertion-ordered dict. -/
def alistGet (map : List (String × AlertHolder)) (key : String) : Option AlertHolder :=
  match map with
  | [] => none
  | (k, a) :: rest => if k = key then some a else alistGet rest key

/-- Replace the holder stored at `key` (used when the alert's text is
mutated in place). -/
def alistSet (map : List (String × AlertHolder)) (key : String) (a : AlertHolder) :
    List (String × AlertHolder) :=
  map.map fun kv => if kv.1 = key then (key, a) else kv

/-- `AbstractDevice.__writeAlert` (AbstractDevice.py lines 943-973) on
the (old set, alert map) pair, with the device identity, handle counter
and emitted writer calls threaded through.

The retraction branch executes
`writer.unregister_instance(alert.data, alert.handle)`; the
`ice_DataWriter.unregister_instance` method (ice_DataWriter.py lines
79-86) accepts a single handle argument, so this two-argument call raises
`TypeError` before the following `map.pop(key, None)` runs.

The upsert branch builds `ice_Alert()` (IDL string fields default to the
empty string), registers it and inserts it into the map, then executes
`old.remove(key)`: Python's `set.remove` raises `KeyError` when the key
is absent.  (In Python the in-place map insertion survives such a raise;
the error value is what the theorems consume.) -/
def writeAlertCore (udi : String) (nextHandle : Nat) (old : List String)
    (map : List (String × AlertHolder)) (key : String) (value : Option String) :
    Except PyError (Nat × List String × List (String × AlertHolder) × List DeviceAction) :=
  let alert := alistGet map key
  match value with
  | none =>
    match alert with
    | some _ => .error .typeError
    | none => .ok (nextHandle, old, map, [])
  | some v =>
    let (alert, nextHandle', map, acts) :=
      match alert with
      | some a => (a, nextHandle, map, ([] : List DeviceAction))
      | none =>
        let data : ice_Alert := ⟨udi, key, ""⟩
        let a : AlertHolder := ⟨data, some nextHandle⟩
        (a, nextHandle + 1, map ++ [(key, a)], [DeviceAction.registerAlert nextHandle])
    if key ∈ old then
      let old := old.erase key
      if v ≠ alert.data.text then
        let a' : AlertHolder := ⟨{ alert.data with text := v }, alert.handle⟩
        .ok (nextHandle', old, alistSet map key a', acts ++ [.alertWrite a'.handle a'.data])
      else
        .ok (nextHandle', old, map, acts)
    else
      .error (.keyError key)

/-- `AbstractDevice._writePatientAlert` (AbstractDevice.py lines
1012-1020): `__writeAlert` on the patient old set, map and writer. -/
def _writePatientAlert (s : DeviceState) (key : String) (value : Option String) :
    Except PyError DeviceState := do
  let (nh, old, map, acts) ← writeAlertCore s.unique_device_identifier s.nextHandle
    s.oldPatientAlertInstances s.patientAlertInstances key value
  .ok { s with nextHandle := nh, oldPatientAlertInstances := old,
               patientAlertInstances := map, actions := s.actions ++ acts }

/-- `AbstractDevice._writeTechnicalAlert` (AbstractDevice.py lines
1023-1031). -/
def _writeTechnicalAlert (s : DeviceState) (key : String) (value : Option String) :
    Except PyError DeviceState := do
  let (nh, old, map, acts) ← writeAlertCore s.unique_device_identifier s.nextHandle
    s.oldTechnicalAlertInstances s.technicalAlertInstances key value
  .ok { s with nextHandle := nh, oldTechnicalAlertInstances := old,
               technicalAlertInstances := map, actions := s.actions ++ acts }

/-- `AbstractDevice._markOldPatientAlertInstances` (AbstractDevice.py
lines 976-982): clears the old set and refills it with the currently
live keys. -/
def _markOldPatientAlertInstances (s : DeviceState) : DeviceState :=
  { s with oldPatientAlertInstances := s.patientAlertInstances.map (·.1) }

/-- `AbstractDevice._markOldTechnicalAlertInstances` (AbstractDevice.py
lines 985-991). -/
def _markOldTechnicalAlertInstances (s : DeviceState) : DeviceState :=
  { s with oldTechnicalAlertInstances := s.technicalAlertInstances.map (·.1) }

/-- Retract each key of the given list through `_writePatientAlert`
with `value=None`, propagating any raise. -/
def retractPatientKeys : List String → DeviceState → Except PyError DeviceState
  | [], s => .ok s
  | key :: rest, s => do retractPatientKeys rest (← _writePatientAlert s key none)

/-- Retract each key of the given list through `_writeTechnicalAlert`
with `value=None`. -/
def retractTechnicalKeys : List String → DeviceState → Except PyError DeviceState
  | [], s => .ok s
  | key :: rest, s => do retractTechnicalKeys rest (← _writeTechnicalAlert s key none)

/-- `AbstractDevice._clearOldPatientAlertInstances` (AbstractDevice.py
lines 994-1000): `writePatientAlert(key, None)` for every key of the old
set.  The retraction branch never mutates the old set, so snapshotting
the key list before the loop is faithful to iterating the live set. -/
def _clearOldPatientAlertInstances (s : DeviceState) : Except PyError DeviceState :=
  retractPatientKeys s.oldPatientAlertInstances s

/-- `AbstractDevice._clearOldTechnicalAlertInstances` (AbstractDevice.py
lines 1003-1009). -/
def _clearOldTechnicalAlertInstances (s : DeviceState) : Except PyError DeviceState :=
  retractTechnicalKeys s.oldTechnicalAlertInstances s

/-- `AbstractDevice.__unregisterAllAlertInstances` (AbstractDevice.py
lines 635-645) for the patient map: `__writeAlert(old, map, writer, key,
None)` for each key of the live map.  Every such key is present in the
map, so the first call raises `TypeError` (see `writeAlertCore`); the
`dict changed size during iteration` RuntimeError that a successful pop
would cause is unreachable, so iterating the initial key list is
faithful. -/
def _unregisterAllPatientAlertInstances (s : DeviceState) : Except PyError DeviceState :=
  retractPatientKeys (s.patientAlertInstances.map (·.1)) s

/-- `AbstractDevice.__unregisterAllAlertInstances` for the technical
map (AbstractDevice.py lines 656-661). -/
def _unregisterAllTechnicalAlertInstances (s : DeviceState) : Except PyError DeviceState :=
  retractTechnicalKeys (s.technicalAlertInstances.map (·.1)) s

/-- The `while instances: unregister(instances[0])` drain loops: each
step removes the head holder from the collection and unregisters its
handle with the writer. -/
def drainHolders (mk : Option Nat → DeviceAction) : List SimpleHolder → List DeviceAction
  | [] => []
  | h :: rest => mk h.handle :: drainHolders mk rest

/-- `AbstractDevice._unregisterAllSampleArrayInstances`
(AbstractDevice.py lines 691-697). -/
def _unregisterAllSampleArrayInstances (s : DeviceState) : DeviceState :=
  { s with registeredSampleArrayInstances := [],
           actions := s.actions ++
             drainHolders .unregisterSampleArray s.registeredSampleArrayInstances }

/-- `AbstractDevice._unregisterAllAlarmLimitInstances`
(AbstractDevice.py lines 673-679). -/
def _unregisterAllAlarmLimitInstances (s : DeviceState) : DeviceState :=
  { s with registeredAlarmLimitInstances := [],
           actions := s.actions ++
             drainHolders .unregisterAlarmLimit s.registeredAlarmLimitInstances }

/-- `AbstractDevice._unregisterAllAlarmLimitObjectiveInstances`
(AbstractDevice.py lines 664-670). -/
def _unregisterAllAlarmLimitObjectiveInstances (s : DeviceState) : DeviceState :=
  { s with registeredAlarmLimitObjectiveInstances := [],
           actions := s.actions ++
             drainHolders .unregisterAlarmLimitObjective
               s.registeredAlarmLimitObjectiveInstances }

/-- `AbstractDevice._unregisterAllNumericInstances` (AbstractDevice.py
lines 682-688).  Note: `_unregisterAllInstances` does NOT call this —
see below. -/
def _unregisterAllNumericInstances (s : DeviceState) : DeviceState :=
  { s with registeredNumericInstances := [],
           actions := s.actions ++
             s.registeredNumericInstances.map (fun h => .unregisterNumeric h.handle) }

/-- `AbstractDevice._unregisterAllInstances` (AbstractDevice.py lines
620-632).  The call `self._unregisterAllNumericInstances()` on line 626
is commented out in the source, so registered numeric instances are not
torn down.  The final line unregisters the device-identity instance. -/
def _unregisterAllInstances (s : DeviceState) : Except PyError DeviceState := do
  let s := _unregisterAllSampleArrayInstances s
  let s := _unregisterAllAlarmLimitInstances s
  let s := _unregisterAllAlarmLimitObjectiveInstances s
  let s ← _unregisterAllPatientAlertInstances s
  let s ← _unregisterAllTechnicalAlertInstances s
  .ok { s with actions := s.actions ++ [.unregisterDeviceIdentity s.deviceIdentityHandle] }

/-! ### Numeric publication (`_createNumericInstance`, `_numericSample`) -/

/-- `AbstractDevice._createNumericInstance` (AbstractDevice.py lines
494-524): raises `RuntimeError` without a populated unique device
identifier, otherwise builds the record, registers it (the modelled
writer returns the fresh handle `s.nextHandle`, never nil) and appends
the holder to the registry. -/
def _createNumericInstance (s : DeviceState) (metric_id vendor_metric_id : String)
    (instance_id : ℤ) (unit_id : String) : Except PyError (DeviceState × NumericHolder) :=
  if s.unique_device_identifier = "" then .error .runtimeError
  else
    let data : ice_Numeric :=
      { unique_device_identifier := s.unique_device_identifier,
        metric_id := metric_id, vendor_metric_id := vendor_metric_id,
        instance_id := instance_id, unit_id := unit_id,
        value := none, device_time := ⟨0, 0⟩, presentation_time := ⟨0, 0⟩ }
    let holder : NumericHolder := ⟨data, some s.nextHandle⟩
    .ok ({ s with nextHandle := s.nextHandle + 1,
                  registeredNumericInstances := s.registeredNumericInstances ++ [holder],
                  actions := s.actions ++ [.registerNumeric s.nextHandle] }, holder)

/-- `registry.remove(holder)`: Python's `list.remove` matches on object
identity here; handles minted by the writer are unique, so matching on
the stored handle is faithful.  Returns `none` when the holder is absent
(Python raises `ValueError`). -/
def removeFirstNumericByHandle : List NumericHolder → Option Nat → Option (List NumericHolder)
  | [], _ => none
  | h :: rest, hd =>
    if h.handle = hd then some rest
    else (removeFirstNumericByHandle rest hd).map (h :: ·)

/-- `AbstractDevice._unregisterNumericInstance` (AbstractDevice.py lines
700-709): removes the holder from the registry and unregisters its
handle. -/
def _unregisterNumericInstance (s : DeviceState) (holder : NumericHolder) :
    Except PyError DeviceState :=
  match removeFirstNumericByHandle s.registeredNumericInstances holder.handle with
  | none => .error .valueError
  | some l => .ok { s with registeredNumericInstances := l,
                           actions := s.actions ++ [.unregisterNumeric holder.handle] }

/-- Registry entries alias the holder object that `_numericSample`
mutates in place; propagate the mutation to the entry with the same
handle. -/
def updateNumericRegistry (l : List NumericHolder) (h : NumericHolder) : List NumericHolder :=
  l.map fun x => if x.handle = h.handle then h else x

/-- The averager dict update of the bare-update branch (AbstractDevice.py
lines 793-798): append to the existing metric's buffer, else auto-vivify
a fresh `Averager` seeded with the value.  The value appended is whatever
`new_value` holds, `None` included. -/
def averagesAdd : List (String × List (Option ℚ)) → String → Option ℚ →
    List (String × List (Option ℚ))
  | [], key, v => [(key, [v])]
  | (k, vs) :: rest, key, v =>
    if k = key then (k, vs ++ [v]) :: rest else (k, vs) :: averagesAdd rest key v

/-- The bare-update branch of `AbstractDevice._numericSample`
(AbstractDevice.py lines 773-798), reached directly when no identity
fields are supplied and through the self-call
`self._numericSample(holder, new_value, time)` of the identity-bearing
branch: stamps value and times into the holder's record, writes it, and
feeds the value to the metric's averager.  Returns the mutated holder. -/
def numericSampleBare (s : DeviceState) (holder : NumericHolder) (new_value : Option ℚ)
    (time : Reading) : DeviceState × NumericHolder :=
  let data : ice_Numeric :=
    { holder.data with
      value := new_value,
      device_time := match time.deviceTimeMs with
        | some ms => to_DDS_time ms
        | none => ⟨0, 0⟩,
      presentation_time := to_DDS_time time.timeMs }
  let holder' : NumericHolder := ⟨data, holder.handle⟩
  ({ s with
      registeredNumericInstances := updateNumericRegistry s.registeredNumericInstances holder',
      actions := s.actions ++ [.writeNumeric holder'.handle data],
      averagesByNumeric := averagesAdd s.averagesByNumeric data.metric_id new_value },
   holder')

/-- Python falsiness of an optional string argument (`not metric_id`):
`None` and the empty string are falsy. -/
def pyFalsyStr : Option String → Bool
  | none => true
  | some st => st = ""

/-- `AbstractDevice._numericSample` (AbstractDevice.py lines 748-824).
The `float(new_value)` cast leaves the rational value unchanged.  With a
falsy `metric_id` or `vendor_metric_id` the bare-update branch runs (it
has no `return` statement, so Python returns `None`).  Otherwise: a
holder whose stored identity differs from the requested
(metric_id, vendor_metric_id, instance_id, unit_id) quadruple is
unregistered first; with a value present a missing holder is
created+registered and the sample published through the bare branch;
with no value any holder is unregistered and `None` returned. -/
def _numericSample (s : DeviceState) (holder : Option NumericHolder)
    (new_value : Option ℚ) (time : Reading)
    (metric_id vendor_metric_id : Option String)
    (unit_id : String) (instance_id : ℤ) :
    Except PyError (DeviceState × Option NumericHolder) :=
  if pyFalsyStr metric_id || pyFalsyStr vendor_metric_id then
    match holder with
    | none => .error .valueError
    | some h =>
      let (s, _) := numericSampleBare s h new_value time
      .ok (s, none)
  else do
    let m := metric_id.getD ""
    let vm := vendor_metric_id.getD ""
    let (s, holder) ←
      match holder with
      | some h =>
        if h.data.metric_id ≠ m ∨ h.data.vendor_metric_id ≠ vm ∨
            h.data.instance_id ≠ instance_id ∨ h.data.unit_id ≠ unit_id then do
          let s ← _unregisterNumericInstance s h
          pure (s, (none : Option NumericHolder))
        else
          pure (s, some h)
      | none => pure (s, (none : Option NumericHolder))
    match new_value with
    | some _ => do
      let (s, h) ←
        match holder with
        | none => _createNumericInstance s m vm instance_id unit_id
        | some h => pure (s, h)
      let (s, h') := numericSampleBare s h new_value time
      pure (s, some h')
    | none =>
      match holder with
      | some h => do
        let s ← _unregisterNumericInstance s h
        pure (s, (none : Option NumericHolder))
      | none => pure (s, (none : Option NumericHolder))

/-- Number of numeric registrations in an action log (used to state
"no re-registration"). -/
def numericRegisterCount (acts : List DeviceAction) : Nat :=
  (acts.filter fun a => match a with
    | .registerNumeric _ => true
    | _ => false).length

/-! ### Concrete device fixtures used by the claim theorems -/

/-- A device state fresh out of `AbstractDevice.__init__`, with a
populated unique device identifier and a registered device-identity
instance. -/
def emptyDeviceState : DeviceState :=
  { unique_device_identifier := "udi-1", nextHandle := 0,
    registeredNumericInstances := [], registeredSampleArrayInstances := [],
    registeredAlarmLimitInstances := [], registeredAlarmLimitObjectiveInstances := [],
    patientAlertInstances := [], technicalAlertInstances := [],
    oldPatientAlertInstances := [], oldTechnicalAlertInstances := [],
    averagesByNumeric := [], deviceIdentityHandle := some 100, actions := [] }

/-- A registered pulse-rate numeric holder (handle 0). -/
def sampleNumericHolder : NumericHolder :=
  ⟨{ unique_device_identifier := "udi-1", metric_id := "MDC_PULS_RATE",
     vendor_metric_id := "PULS", instance_id := 0,
     unit_id := "MDC_DIM_BEAT_PER_MIN", value := none,
     device_time := ⟨0, 0⟩, presentation_time := ⟨0, 0⟩ }, some 0⟩

/-- A state holding one registered numeric and one registered sample
array. -/
def c2State : DeviceState :=
  { emptyDeviceState with
    nextHandle := 2,
    registeredNumericInstances := [sampleNumericHolder],
    registeredSampleArrayInstances := [⟨some 1⟩] }

/-- A state holding one live patient alert. -/
def c2AlertState : DeviceState :=
  { emptyDeviceState with
    nextHandle := 1,
    patientAlertInstances := [("low battery", ⟨⟨"udi-1", "low battery", "warn"⟩, some 0⟩)] }

/-- The spec's running example: live patient alerts {"A", "B"}. -/
def c3State : DeviceState :=
  { emptyDeviceState with
    nextHandle := 2,
    patientAlertInstances :=
      [("A", ⟨⟨"udi-1", "A", "old A"⟩, some 0⟩),
       ("B", ⟨⟨"udi-1", "B", "text B"⟩, some 1⟩)] }

/-- A state whose live patient alert "A" is also in the old-keys set. -/
def c9State : DeviceState :=
  { emptyDeviceState with
    nextHandle := 1,
    patientAlertInstances := [("A", ⟨⟨"udi-1", "A", "v"⟩, some 0⟩)],
    oldPatientAlertInstances := ["A"] }

/-! ## Shared helper lemmas -/

/-- Folding `Averager.add` over a value list appends it to the buffer. -/
theorem averager_foldl_add (l vs : List ℚ) :
    vs.foldl Averager.add ⟨l⟩ = ⟨l ++ vs⟩ := by
  induction vs generalizing l with
  | nil => simp
  | cons v t ih => simpa [Averager.add] using ih (l ++ [v])

/-! ## Claims -/

/-- C1 (code bug): for every pair (currentState, candidate) in the
connectivity legal-transition table,
`StateMachine.transitionIfLegal(candidate, note)` returns `True` and
updates the state and transition note, as claimed; but for every pair
not in the table the illegal branch raises `AttributeError` (the
`self.__log` read mangles to the undefined `_StateMachine__log`; the
class logger is `_log`) instead of logging and returning `False` —
state and note are indeed left unchanged, since nothing is mutated
before the raise. -/
theorem c1_transitionIfLegal_raises_on_illegal :
    ∀ (cur cand : ice_ConnectionState) (note0 note : String),
      StateMachine.transitionIfLegal ⟨cur, connectivityLegalTransitions, note0⟩ cand note =
        if (cur, cand) ∈ connectivityLegalTransitions then
          .ok (true, ⟨cand, connectivityLegalTransitions, note⟩)
        else .error .attributeError := by
  intro cur cand note0 note
  cases cur <;> cases cand <;> rfl

/-- C7: `Averager.get()` with no prior `add()` returns 0.0 leaving the
buffer empty; after N ≥ 1 `add(v_i)` calls with no intervening get,
`get()` returns the arithmetic mean of the v_i and empties the buffer, so
an immediately following `get()` returns 0.0. -/
theorem c7_averager_get_mean_and_drain :
    Averager.get ⟨[]⟩ = (0, ⟨[]⟩)
    ∧ ∀ (vs : List ℚ), vs ≠ [] →
        (Averager.get (vs.foldl Averager.add ⟨[]⟩)).1 = vs.sum / vs.length
        ∧ (Averager.get (vs.foldl Averager.add ⟨[]⟩)).2 = ⟨[]⟩
        ∧ Averager.get (Averager.get (vs.foldl Averager.add ⟨[]⟩)).2 = (0, ⟨[]⟩) := by
  refine ⟨by decide, fun vs hvs => ?_⟩
  rw [averager_foldl_add]
  simp only [List.nil_append]
  unfold Averager.get
  rw [if_neg hvs]
  exact ⟨rfl, rfl, by simp⟩

/-- Witness for C7 with the two adds 1 and 2. -/
theorem c7_witness :
    (Averager.get (([1, 2] : List ℚ).foldl Averager.add ⟨[]⟩)).1 =
        ([1, 2] : List ℚ).sum / ([1, 2] : List ℚ).length
    ∧ (Averager.get (([1, 2] : List ℚ).foldl Averager.add ⟨[]⟩)).2 = ⟨[]⟩
    ∧ Averager.get (Averager.get (([1, 2] : List ℚ).foldl Averager.add ⟨[]⟩)).2 =
        (0, ⟨[]⟩) :=
  c7_averager_get_mean_and_drain.2 [1, 2] (by decide)

/-- C8 (code bug): the claim says a coarser computed period leaves the
tracked value, a finer one replaces it, and a negative period raises a
fatal configuration error.  The static `ensure_resolution_for_frequency`
does implement exactly that tightening (shown at a finer, a coarser and
a negative-period input below), but the entry point the claim names —
`refine_resolution_for_frequency` — raises `AttributeError` on every
call (mangled attribute read), so across any non-empty call sequence the
tracker is never replaced by a finer period and the negative-period
`ValueError` is unreachable through it. -/
theorem c8_refine_resolution_raises :
    ∀ (tracker hertz size init : ℤ) (p : ℤ × ℤ) (rest : List (ℤ × ℤ)),
      refine_resolution_for_frequency tracker hertz size = .error .attributeError
      ∧ refineResolutionCalls init (p :: rest) = .error .attributeError
      ∧ ensure_resolution_for_frequency 1000000000 100 1 = .ok 10000000
      ∧ ensure_resolution_for_frequency 10000000 1 1 = .ok 10000000
      ∧ ensure_resolution_for_frequency 10000000 (-1) 1 = .error .valueError := by
  intro tracker hertz size init p rest
  refine ⟨rfl, ?_, rfl, rfl, rfl⟩
  cases p with
  | mk hz sz => rfl

/-- C4 (code bug): `waitAndHandle` is claimed to end every call with the
service-thread role released and all waiters notified.  With the role
held by thread 0 and never freed, a call from thread 1 with a non-zero
duration exits by `TimeoutError` raised on line 305 — after line 302 has
recorded thread 1 as service thread, outside the `try`/`finally` — so the
role is left recorded and nobody is notified; likewise a timeout raised
by the `waitSet.wait` call on line 307 (also outside the `try`) leaks the
freshly acquired role.  Only the dispatch paths release and notify. -/
theorem c4_waitAndHandle_leaks_role :
    waitAndHandle (some 0) 1 false false false false =
      (some 1, false, .error .timeoutError)
    ∧ waitAndHandle none 1 false false true false =
      (some 1, false, .error .timeoutError)
    ∧ waitAndHandle none 1 false false false false = (none, true, .ok none)
    ∧ waitAndHandle none 1 false false false true = (none, true, .ok (some false)) :=
  ⟨rfl, rfl, rfl, rfl⟩

/-- C6 (code bug): `doNow` called from the current service thread runs
the callable synchronously inline; called from any other thread the
source constructs `NestedCallable()` without the required callable and
logger arguments, raising `TypeError` before anything is enqueued, so the
callable is neither queued nor executed. -/
theorem c6_doNow_typeError_off_service_thread {σ : Type} :
    (∀ (tid : Nat) (q : List Nat) (c : σ → σ) (st : σ),
      doNow (some tid) tid q c st = .ok (c st, q, true))
    ∧ doNow (some 0) 1 [] (fun n => n + 1) (5 : Nat) = .error .typeError := by
  constructor
  · intro tid q c st
    simp [doNow, is_current_service_thread]
  · rfl

/-- C10: immediately after `EventLoop.__init__`, the constructing thread
is recorded as the current service thread: `is_current_service_thread`
returns true on it, `addHandler`, `removeHandler` and `doNow` from it
take the inline branch, and a `waitAndHandle` from any other thread
cannot acquire the role while the recording stands (with the role never
freed it exits with `TimeoutError` instead of dispatching). -/
theorem c10_constructor_thread_is_service_thread {σ : Type} :
    ∀ (t u condId : Nat) (q : List Nat) (c : σ → σ) (st : σ)
      (durZero waitTO handlerTO : Bool),
      u ≠ t →
      is_current_service_thread (eventLoopInit t).currentServiceThread t = true
      ∧ (addHandler (eventLoopInit t) t condId).1 = true
      ∧ (removeHandler (eventLoopInit t) t condId).1 = true
      ∧ doNow (eventLoopInit t).currentServiceThread t q c st = .ok (c st, q, true)
      ∧ (waitAndHandle (eventLoopInit t).currentServiceThread u durZero false
          waitTO handlerTO).2.2 = .error .timeoutError := by
  intro t u condId q c st durZero waitTO handlerTO _
  refine ⟨?_, ?_, ?_, ?_, ?_⟩
  · simp [is_current_service_thread, eventLoopInit]
  · simp [addHandler, is_current_service_thread, eventLoopInit]
  · simp [removeHandler, is_current_service_thread, eventLoopInit]
  · simp [doNow, is_current_service_thread, eventLoopInit]
  · cases durZero <;> simp [waitAndHandle, eventLoopInit]

/-- Witness for C10 with constructing thread 0 and caller thread 1. -/
theorem c10_witness :
    is_current_service_thread (eventLoopInit 0).currentServiceThread 0 = true
    ∧ (addHandler (eventLoopInit 0) 0 7).1 = true
    ∧ (removeHandler (eventLoopInit 0) 0 7).1 = true
    ∧ doNow (eventLoopInit 0).currentServiceThread 0 [] (fun n => n + 1) (5 : Nat) =
        .ok (6, [], true)
    ∧ (waitAndHandle (eventLoopInit 0).currentServiceThread 1 false false
        false false).2.2 = .error .timeoutError :=
  c10_constructor_thread_is_service_thread 0 1 7 [] (fun n => n + 1) 5
    false false false (by decide)

/-- C2 (code bug): `_unregisterAllInstances` is claimed to empty all four
registered-instance collections and both alert maps, idempotently.  The
call to `_unregisterAllNumericInstances()` is commented out in the source
(AbstractDevice.py line 626), so a registered numeric instance survives
the call; and with any live alert the per-key retraction raises
`TypeError` (two-argument call of the one-argument
`ice_DataWriter.unregister_instance`), so the alert maps are never
flushed. -/
theorem c2_unregisterAllInstances_skips_numerics :
    (∃ s', _unregisterAllInstances c2State = .ok s'
      ∧ s'.registeredNumericInstances = [sampleNumericHolder]
      ∧ s'.registeredSampleArrayInstances = []
      ∧ s'.registeredAlarmLimitInstances = []
      ∧ s'.registeredAlarmLimitObjectiveInstances = [])
    ∧ _unregisterAllInstances c2AlertState = .error .typeError := by
  refine ⟨⟨_, rfl, ?_, ?_, ?_, ?_⟩, rfl⟩ <;> rfl

/-- C3 (code bug): the alert refresh cycle.  `markOld` does snapshot the
live key set, and refreshing a previously-live key does drop it from the
old set and republish the changed text; but `clearOld` raises `TypeError`
on the first retraction (two-argument `unregister_instance` call) instead
of retracting the stale key, and publishing a brand-new key raises
`KeyError` because `old.remove(key)` is called on a set that does not
contain the key. -/
theorem c3_alert_refresh_cycle_raises :
    (_markOldPatientAlertInstances c3State).oldPatientAlertInstances = ["A", "B"]
    ∧ (∃ s2, _writePatientAlert (_markOldPatientAlertInstances c3State) "A" (some "v") =
          .ok s2
        ∧ s2.oldPatientAlertInstances = ["B"]
        ∧ (alistGet s2.patientAlertInstances "A").map (·.data.text) = some "v"
        ∧ _clearOldPatientAlertInstances s2 = .error .typeError)
    ∧ _writePatientAlert emptyDeviceState "C" (some "v") = .error (.keyError "C") := by
  refine ⟨rfl, ⟨_, rfl, ?_, ?_, ?_⟩, rfl⟩ <;> rfl

/-- C9 (code bug): a `writeAlert` retraction (`value=None`) of a key
present in the live map is claimed to remove it from the live map and
leave it absent from the old-keys set; the code instead raises
`TypeError` on the two-argument `unregister_instance` call, before the
`map.pop`, leaving the key both live and in the old set (and even the
intended pop never touches the old set). -/
theorem c9_retraction_leaves_old_key :
    alistGet c9State.patientAlertInstances "A" ≠ none
    ∧ "A" ∈ c9State.oldPatientAlertInstances
    ∧ _writePatientAlert c9State "A" none = .error .typeError := by
  refine ⟨by decide, by decide, rfl⟩

/-- A write action does not change the number of numeric registrations
in the log. -/
theorem numericRegisterCount_append_write (acts : List DeviceAction) (h : Option Nat)
    (d : ice_Numeric) :
    numericRegisterCount (acts ++ [.writeNumeric h d]) = numericRegisterCount acts := by
  simp [numericRegisterCount, List.filter_append]

/-- A holder present in the registry is found by `list.remove`. -/
theorem removeFirstNumericByHandle_isSome (l : List NumericHolder) (h : NumericHolder)
    (hm : h ∈ l) : ∃ l', removeFirstNumericByHandle l h.handle = some l' := by
  induction l with
  | nil => cases hm
  | cons x rest ih =>
    by_cases hx : x.handle = h.handle
    · exact ⟨rest, by simp [removeFirstNumericByHandle, hx]⟩
    · cases hm with
      | head => exact absurd rfl hx
      | tail _ hmem =>
        obtain ⟨l', hl'⟩ := ih hmem
        exact ⟨x :: l', by simp [removeFirstNumericByHandle, hx, hl']⟩

/-- Publishing through a holder whose stored identity matches the
requested quadruple keeps the holder and handle and registers nothing
new. -/
theorem numericSample_reuse (s : DeviceState) (h : NumericHolder) (w : ℚ) (t : Reading)
    (m vm u : String) (i : ℤ)
    (hm : m ≠ "") (hvm : vm ≠ "")
    (h1 : h.data.metric_id = m) (h2 : h.data.vendor_metric_id = vm)
    (h3 : h.data.instance_id = i) (h4 : h.data.unit_id = u) :
    ∃ s' h',
      _numericSample s (some h) (some w) t (some m) (some vm) u i = .ok (s', some h')
      ∧ h'.handle = h.handle
      ∧ s'.nextHandle = s.nextHandle
      ∧ numericRegisterCount s'.actions = numericRegisterCount s.actions := by
  refine ⟨(numericSampleBare s h (some w) t).1, (numericSampleBare s h (some w) t).2,
    ?_, rfl, rfl, ?_⟩
  · unfold _numericSample
    simp [pyFalsyStr, hm, hvm, h1, h2, h3, h4, bind, Except.bind, pure, Except.pure]
  · show numericRegisterCount (s.actions ++ [_]) = _
    exact numericRegisterCount_append_write _ _ _

/-- Publishing through a holder whose stored identity differs from the
requested quadruple unregisters the old holder first and then registers
and writes a fresh instance under the next handle. -/
theorem numericSample_recreate (s : DeviceState) (h : NumericHolder) (w : ℚ) (t : Reading)
    (m vm u : String) (i : ℤ) (hd : Nat)
    (hm : m ≠ "") (hvm : vm ≠ "")
    (hdiff : ¬(h.data.metric_id = m ∧ h.data.vendor_metric_id = vm ∧
               h.data.instance_id = i ∧ h.data.unit_id = u))
    (hudi : s.unique_device_identifier ≠ "")
    (hh : h.handle = some hd) (hlt : hd < s.nextHandle)
    (hmem : h ∈ s.registeredNumericInstances) :
    ∃ s' h',
      _numericSample s (some h) (some w) t (some m) (some vm) u i = .ok (s', some h')
      ∧ h'.handle = some s.nextHandle
      ∧ h'.handle ≠ h.handle
      ∧ s'.actions = s.actions ++
          [.unregisterNumeric h.handle, .registerNumeric s.nextHandle,
           .writeNumeric (some s.nextHandle) h'.data] := by
  obtain ⟨l0, hrem⟩ := removeFirstNumericByHandle_isSome s.registeredNumericInstances h hmem
  have hcond : h.data.metric_id ≠ m ∨ h.data.vendor_metric_id ≠ vm ∨
      h.data.instance_id ≠ i ∨ h.data.unit_id ≠ u := by tauto
  set s1 : DeviceState :=
    { s with registeredNumericInstances := l0,
             actions := s.actions ++ [.unregisterNumeric h.handle] } with hs1
  set nd : ice_Numeric :=
    { unique_device_identifier := s.unique_device_identifier, metric_id := m,
      vendor_metric_id := vm, instance_id := i, unit_id := u, value := none,
      device_time := ⟨0, 0⟩, presentation_time := ⟨0, 0⟩ } with hnd
  set nh : NumericHolder := ⟨nd, some s.nextHandle⟩ with hnh
  set s2 : DeviceState :=
    { s1 with nextHandle := s.nextHandle + 1,
              registeredNumericInstances := l0 ++ [nh],
              actions := s1.actions ++ [.registerNumeric s.nextHandle] } with hs2
  have step1 : _unregisterNumericInstance s h = .ok s1 := by
    unfold _unregisterNumericInstance
    rw [hrem]
  have step2 : _createNumericInstance s1 m vm i u = .ok (s2, nh) := by
    unfold _createNumericInstance
    rw [if_neg (show ¬(s1.unique_device_identifier = "") from hudi)]
  have main : _numericSample s (some h) (some w) t (some m) (some vm) u i =
      .ok ((numericSampleBare s2 nh (some w) t).1,
           some (numericSampleBare s2 nh (some w) t).2) := by
    unfold _numericSample
    simp [pyFalsyStr, hm, hvm, hcond, step1, step2, bind, Except.bind, pure, Except.pure]
  refine ⟨_, _, main, rfl, ?_, ?_⟩
  · have hha : (numericSampleBare s2 nh (some w) t).2.handle = some s.nextHandle := rfl
    rw [hha, hh]
    simp only [ne_eq, Option.some.injEq]
    omega
  · simp [numericSampleBare, hs2, hs1, List.append_assoc]

/-- C5: publishing a numeric via `_numericSample` twice with the same
identity quadruple (metric_id, vendor_metric_id, instance_id, unit_id)
reuses the holder and handle with no re-registration; a holder whose
stored identity differs in any of the four fields is unregistered first
and a fresh instance is created and registered with a new handle. -/
theorem c5_numericSample_identity_upsert :
    ∀ (s : DeviceState) (h : NumericHolder) (w : ℚ) (t : Reading)
      (m vm u : String) (i : ℤ) (hd : Nat),
      (m ≠ "" → vm ≠ "" →
        h.data.metric_id = m → h.data.vendor_metric_id = vm →
        h.data.instance_id = i → h.data.unit_id = u →
        ∃ s' h',
          _numericSample s (some h) (some w) t (some m) (some vm) u i = .ok (s', some h')
          ∧ h'.handle = h.handle
          ∧ s'.nextHandle = s.nextHandle
          ∧ numericRegisterCount s'.actions = numericRegisterCount s.actions)
    ∧ (m ≠ "" → vm ≠ "" →
        ¬(h.data.metric_id = m ∧ h.data.vendor_metric_id = vm ∧
          h.data.instance_id = i ∧ h.data.unit_id = u) →
        s.unique_device_identifier ≠ "" →
        h.handle = some hd → hd < s.nextHandle →
        h ∈ s.registeredNumericInstances →
        ∃ s' h',
          _numericSample s (some h) (some w) t (some m) (some vm) u i = .ok (s', some h')
          ∧ h'.handle = some s.nextHandle
          ∧ h'.handle ≠ h.handle
          ∧ s'.actions = s.actions ++
              [.unregisterNumeric h.handle, .registerNumeric s.nextHandle,
               .writeNumeric (some s.nextHandle) h'.data]) :=
  fun s h w t m vm u i hd =>
    ⟨fun hm hvm h1 h2 h3 h4 => numericSample_reuse s h w t m vm u i hm hvm h1 h2 h3 h4,
     fun hm hvm hdiff hudi hh hlt hmem =>
       numericSample_recreate s h w t m vm u i hd hm hvm hdiff hudi hh hlt hmem⟩

/-- Witness for C5: republishing the registered pulse-rate numeric with
its own identity reuses handle 0; republishing it with a different
unit_id unregisters handle 0 and registers handle 2. -/
theorem c5_witness :
    (∃ s' h',
      _numericSample c2State (some sampleNumericHolder) (some 7) ⟨some 1500, 2500⟩
          (some "MDC_PULS_RATE") (some "PULS") "MDC_DIM_BEAT_PER_MIN" 0 = .ok (s', some h')
      ∧ h'.handle = sampleNumericHolder.handle
      ∧ s'.nextHandle = c2State.nextHandle
      ∧ numericRegisterCount s'.actions = numericRegisterCount c2State.actions)
    ∧ (∃ s' h',
      _numericSample c2State (some sampleNumericHolder) (some 7) ⟨some 1500, 2500⟩
          (some "MDC_PULS_RATE") (some "PULS") "MDC_DIM_KILO_G" 0 = .ok (s', some h')
      ∧ h'.handle = some c2State.nextHandle
      ∧ h'.handle ≠ sampleNumericHolder.handle
      ∧ s'.actions = c2State.actions ++
          [.unregisterNumeric sampleNumericHolder.handle,
           .registerNumeric c2State.nextHandle,
           .writeNumeric (some c2State.nextHandle) h'.data]) :=
  ⟨(c5_numericSample_identity_upsert c2State sampleNumericHolder 7 ⟨some 1500, 2500⟩
      "MDC_PULS_RATE" "PULS" "MDC_DIM_BEAT_PER_MIN" 0 0).1
      (by decide) (by decide) rfl rfl rfl rfl,
   (c5_numericSample_identity_upsert c2State sampleNumericHolder 7 ⟨some 1500, 2500⟩
      "MDC_PULS_RATE" "PULS" "MDC_DIM_KILO_G" 0 0).2
      (by decide) (by decide) (by decide) (by decide) rfl (by decide) (by decide)⟩
